import Mathlib

/-!
Verification development for `src/ucsfndt/redcap/humandatabase/humanneuroredcap.py`,
the `HumanNeuroRedcap` patient-identity helper.

Shallow embedding conventions:
* A pandas dataframe cell is `Cell`: a string, a non-NaN numeric value
  (represented by the integer that Python's `int()` would produce from it), or NaN.
* The REDCap `Project` collaborator is abstracted as an `Env`: the table that
  `export_records` returns, the entropy streams consumed by `secrets.choice`
  (a stream of indices into `valid_id_chars`) and `uuid.uuid4()` (a stream of
  128-bit integers rendered by `.hex`), and whether the post-write verification
  `export_records(records=[ucsf_id])` call raises.
* Python exceptions are `Except PyError`; the unbounded rejection-sampling
  `while` loops are modelled with explicit fuel, diverging runs mapping to the
  distinguished `PyError.diverged` (no Python behaviour corresponds to it;
  every theorem about a completed call is unaffected).
* `add_patient` is modelled after its connectivity guard (`self.database is
  None` raises RuntimeError); the `Env` represents a connected database.
-/

/-- A Python exception relevant to this module. -/
inductive PyError where
  | valueError (msg : String)
  | attributeError (msg : String)
  | diverged
deriving DecidableEq, Repr

/-- A dataframe cell: a string, a non-NaN number (as the integer `int()` yields), or NaN. -/
inductive Cell where
  | str (s : String)
  | num (n : Int)
  | nan
deriving DecidableEq, Repr

/-- One exported dataframe row, projected to the fields requested by `add_patient`:
`record_id, ucsf_id, ucsf_guid, nda_guid, mrn, first_name, last_name`. -/
structure Row where
  record_id : Cell
  ucsf_id : Cell
  ucsf_guid : Cell
  nda_guid : Cell
  mrn : Cell
  first_name : Cell
  last_name : Cell
deriving DecidableEq, Repr

/-- `string.ascii_uppercase + string.digits`, the class attribute `valid_id_chars`. -/
def validIdChars : String := "ABCDEFGHIJKLMNOPQRSTUVWXYZ0123456789"

/-- `secrets.choice(self.valid_id_chars)`: one character of the alphabet, selected
by the index the entropy stream yields. -/
def choiceChar (i : Fin 36) : Char := validIdChars.toList.getD i.val 'A'

/-- The lowercase hexadecimal digit alphabet used by Python's `%x` formatting. -/
def hexDigits : String := "0123456789abcdef"

/-- Hexadecimal digit of value `i`. -/
def hexDigitF (i : Fin 16) : Char := hexDigits.toList.getD i.val '0'

/-- Hexadecimal digit of `n % 16`. -/
def hexDigit (n : Nat) : Char := hexDigitF ⟨n % 16, Nat.mod_lt n (by decide)⟩

/-- `uuid.uuid4().hex` for the 128-bit integer `n` drawn from the entropy source:
the 32-character lowercase hexadecimal rendering of `n mod 2^128`. -/
def uuidHex (n : Nat) : String :=
  String.mk ((List.range 32).map (fun i => hexDigit (n / 16 ^ (31 - i))))

/-- The `k`-th 4-character candidate produced by
`"".join(secrets.choice(self.valid_id_chars) for _ in range(4))`:
characters `4*k .. 4*k+3` of the choice stream. -/
def drawShortId (charDraw : Nat → Fin 36) (k : Nat) : String :=
  String.mk ((List.range 4).map (fun i => choiceChar (charDraw (4 * k + i))))

/-- `create_ucsf_id`: a fresh `(short_id, guid)` pair with no collision checking. -/
def create_ucsf_id (charDraw : Nat → Fin 36) (uuidVal : Nat) : String × String :=
  (drawShortId charDraw 0, uuidHex uuidVal)

/-- Zero-pad the decimal rendering of a natural number to width `w`. -/
def zpadNat (w : Nat) (n : Nat) : String :=
  String.mk (List.replicate (w - (Nat.repr n).length) '0' ++ (Nat.repr n).toList)

/-- Python `format(n, "0wd")` (an f-string `{n:0wd}`): zero-padded to total width `w`,
the sign occupying one column when `n` is negative. -/
def pyZpad (w : Nat) (n : Int) : String :=
  if n < 0 then "-" ++ zpadNat (w - 1) n.natAbs else zpadNat w n.toNat

/-- Decimal digit value of an ASCII character, if it is one. -/
def digitVal (c : Char) : Option Nat :=
  if 48 <= c.toNat ∧ c.toNat <= 57 then some (c.toNat - 48) else none

/-- Accumulate decimal digits left to right; fails on any non-digit character. -/
def digitsToNat (acc : Nat) : List Char → Option Nat
  | [] => some acc
  | c :: cs =>
    match digitVal c with
    | some d => digitsToNat (acc * 10 + d) cs
    | none => none

/-- Python `int(s)` for a base-10 string: optional sign then decimal digits
(whitespace and underscore forms do not occur among this module's identifiers). -/
def pyIntOfString (s : String) : Option Int :=
  match s.toList with
  | [] => none
  | '-' :: cs =>
    match cs with
    | [] => none
    | _ => (digitsToNat 0 cs).map (fun n => -(n : Int))
  | '+' :: cs =>
    match cs with
    | [] => none
    | _ => (digitsToNat 0 cs).map (fun n => (n : Int))
  | cs => (digitsToNat 0 cs).map (fun n => (n : Int))

/-- The key computed for a row's `mrn` cell: skip NaN (the
`isinstance(m, str) or not isnan(m)` guard), otherwise `f"{int(m):08d}"` —
note the `int()` conversion also applies to string cells, raising `ValueError`
on a non-decimal string. -/
def mrnKeyOf (c : Cell) : Except PyError (Option String) :=
  match c with
  | .nan => .ok none
  | .num n => .ok (some (pyZpad 8 n))
  | .str s =>
    match pyIntOfString s with
    | some n => .ok (some (pyZpad 8 n))
    | none => .error (.valueError ("invalid literal for int() with base 10: " ++ s))

/-- Identifier-set entry for a `ucsf_id` / `ucsf_guid` / `nda_guid` cell:
strings kept as-is, non-NaN numbers zero-padded to width `w`, NaN skipped. -/
def idCellEntry (w : Nat) (c : Cell) : Option String :=
  match c with
  | .str s => some s
  | .num n => some (pyZpad w n)
  | .nan => none

/-- Add an optional entry to a collected identifier list (Python `set.add`;
only membership is ever consulted, so a list suffices). -/
def consOpt (o : Option String) (l : List String) : List String :=
  match o with
  | some s => s :: l
  | none => l

/-- The in-memory structures `add_patient` builds from the export:
`patient_info` (a dict, most recent insertion first so `List.lookup` sees the
latest binding, matching dict overwrite), and the three identifier sets. -/
structure IndexResult where
  patient_info : List (String × Cell × Cell)
  ucsf_ids : List String
  ucsf_guids : List String
  nda_guids : List String
deriving DecidableEq, Repr

/-- One iteration of `for row in records.iterrows()`. -/
def indexStep (acc : IndexResult) (row : Row) : Except PyError IndexResult :=
  match mrnKeyOf row.mrn with
  | .error e => .error e
  | .ok mk =>
    .ok ⟨(match mk with
          | some k => (k, (row.first_name, row.last_name)) :: acc.patient_info
          | none => acc.patient_info),
         consOpt (idCellEntry 4 row.ucsf_id) acc.ucsf_ids,
         consOpt (idCellEntry 32 row.ucsf_guid) acc.ucsf_guids,
         consOpt (idCellEntry 32 row.nda_guid) acc.nda_guids⟩

/-- The full indexing loop over the exported rows. -/
def indexRecords (rows : List Row) : Except PyError IndexResult :=
  rows.foldlM indexStep ⟨[], [], [], []⟩

/-- Python `str.lower()`: characterwise lowercasing (the identifiers and names
this module compares are ASCII, where `Char.toLower` agrees with Python). -/
def pyLower (s : String) : String := String.mk (s.toList.map Char.toLower)

/-- Python `str.lower()` on a cell: `AttributeError` unless the cell is a string. -/
def cellLower (c : Cell) : Except PyError String :=
  match c with
  | .str s => .ok (pyLower s)
  | _ => .error (.attributeError "lower")

/-- The rejection-sampling loop `x = gen(); while x in existing: x = gen()`,
with `cand k` the `k`-th value the generator yields and explicit fuel bounding
the number of candidates examined. -/
def allocLoop (cand : Nat → String) (existing : List String) : Nat → Nat → Option String
  | 0, _ => none
  | fuel + 1, k =>
    if cand k ∈ existing then allocLoop cand existing fuel (k + 1) else some (cand k)

/-- `ucsf_id if ucsf_id is not None else <rejection-sampled fresh value>`:
a caller-supplied identifier bypasses the allocation loop entirely. -/
def resolveId (supplied : Option String) (alloc : Option String) : Except PyError String :=
  match supplied with
  | some u => .ok u
  | none =>
    match alloc with
    | some u => .ok u
    | none => .error .diverged

/-- `record_phi`: the dict written under `redcap_event_name = "general_phi_arm_1"`. -/
structure PhiRecord where
  record_id : String
  redcap_event_name : String
  mrn : String
  first_name : String
  last_name : String
deriving DecidableEq, Repr

/-- `record_info`: the dict written under `redcap_event_name = "demographics_arm_1"`. -/
structure InfoRecord where
  record_id : String
  redcap_event_name : String
  ucsf_id : String
  ucsf_guid : String
  nda_guid : Option String
deriving DecidableEq, Repr

/-- A record dict passed to `import_records`. -/
inductive ImportRecord where
  | phi (r : PhiRecord)
  | info (r : InfoRecord)
deriving DecidableEq, Repr

/-- The observable outcome of a completed `add_patient` call:
the benign-duplicate path (warn, return `None`, nothing imported), or the
insertion path carrying the single `import_records` batch, the optional
verification warning, and the returned `(ucsf_id, ucsf_guid)` pair. -/
inductive AddPatientOutcome where
  | duplicate (warning : String)
  | inserted (imports : List ImportRecord) (verifyWarning : Option String)
      (result : String × String)
deriving DecidableEq, Repr

/-- The body of `add_patient` from the duplicate check on, applied to the
already-indexed export. -/
def add_patient_indexed (idx : IndexResult) (charDraw : Nat → Fin 36)
    (uuidDraw : Nat → Nat) (verifyOk : Bool) (verifyErr : String) (fuel : Nat)
    (mrn first_name last_name : String)
    (ucsf_id ucsf_guid nda_guid : Option String) : Except PyError AddPatientOutcome :=
  match idx.patient_info.lookup mrn with
  | some p_info =>
    match cellLower p_info.1 with
    | .error e => .error e
    | .ok f0 =>
      if pyLower first_name = f0 then
        match cellLower p_info.2 with
        | .error e => .error e
        | .ok l0 =>
          if pyLower last_name = l0 then
            .ok (.duplicate ("MRN " ++ mrn ++ " already exists in database."))
          else
            .error (.valueError
              ("MRN " ++ mrn ++ " already exists in database with different name."))
      else
        .error (.valueError
          ("MRN " ++ mrn ++ " already exists in database with different name."))
  | none =>
    match resolveId ucsf_id (allocLoop (drawShortId charDraw) idx.ucsf_ids fuel 0) with
    | .error e => .error e
    | .ok uid =>
      match resolveId ucsf_guid
          (allocLoop (fun k => uuidHex (uuidDraw k)) idx.ucsf_guids fuel 0) with
      | .error e => .error e
      | .ok gid =>
        .ok (.inserted
          [ImportRecord.phi ⟨uid, "general_phi_arm_1", mrn, first_name, last_name⟩,
           ImportRecord.info ⟨uid, "demographics_arm_1", uid, gid, nda_guid⟩]
          (if verifyOk then none
           else some ("Failed to add patient " ++ mrn ++ " to database: " ++ verifyErr))
          (uid, gid))

/-- The external world `add_patient` interacts with: the exported table, the two
entropy streams, and the behaviour of the verification re-fetch. -/
structure Env where
  table : List Row
  charDraw : Nat → Fin 36
  uuidDraw : Nat → Nat
  verifyOk : Bool
  verifyErr : String

/-- `add_patient`: export and index the table, then run the duplicate check,
identifier allocation, batch import and best-effort verification. -/
def add_patient (env : Env) (fuel : Nat) (mrn first_name last_name : String)
    (ucsf_id ucsf_guid nda_guid : Option String) : Except PyError AddPatientOutcome :=
  match indexRecords env.table with
  | .error e => .error e
  | .ok idx =>
    add_patient_indexed idx env.charDraw env.uuidDraw env.verifyOk env.verifyErr
      fuel mrn first_name last_name ucsf_id ucsf_guid nda_guid

/-- `ucsf_id_lookup`: declared to return `str` but its body is `pass`,
so every call returns `None`; modelled as `Option String` constantly `none`. -/
def ucsf_id_lookup (id_ : String) (id_type : String) : Option String := none

/-- How an `add_patient` outcome changes when the verification re-fetch raises:
the insertion path gains the caught-exception warning, nothing else moves. -/
def withVerifyFailure (mrn verifyErr : String) : AddPatientOutcome → AddPatientOutcome
  | .duplicate w => .duplicate w
  | .inserted imp _ pr =>
    .inserted imp
      (some ("Failed to add patient " ++ mrn ++ " to database: " ++ verifyErr)) pr

/-- A well-formed short ID: 4 characters, each from `valid_id_chars`. -/
def isValidShortId (s : String) : Prop :=
  s.length = 4 ∧ ∀ c ∈ s.toList, c ∈ validIdChars.toList

/-- A well-formed GUID: 32 characters, each a lowercase hexadecimal digit. -/
def isLowerHex32 (s : String) : Prop :=
  s.length = 32 ∧ ∀ c ∈ s.toList, c ∈ hexDigits.toList

/-! ## Helper lemmas -/

theorem choiceChar_mem : ∀ i : Fin 36, choiceChar i ∈ validIdChars.toList := by decide

theorem hexDigitF_mem : ∀ i : Fin 16, hexDigitF i ∈ hexDigits.toList := by decide

theorem hexDigit_mem (n : Nat) : hexDigit n ∈ hexDigits.toList := hexDigitF_mem _

theorem drawShortId_valid (cd : Nat → Fin 36) (k : Nat) :
    isValidShortId (drawShortId cd k) := by
  constructor
  · rfl
  · intro c hc
    have hc' : c ∈ (List.range 4).map (fun i => choiceChar (cd (4 * k + i))) := hc
    rcases List.mem_map.mp hc' with ⟨i, _, rfl⟩
    exact choiceChar_mem _

theorem uuidHex_hex (n : Nat) : isLowerHex32 (uuidHex n) := by
  constructor
  · rfl
  · intro c hc
    have hc' : c ∈ (List.range 32).map (fun i => hexDigit (n / 16 ^ (31 - i))) := hc
    rcases List.mem_map.mp hc' with ⟨i, _, rfl⟩
    exact hexDigit_mem _

theorem allocLoop_not_mem (cand : Nat → String) (existing : List String) :
    ∀ fuel k s, allocLoop cand existing fuel k = some s → s ∉ existing := by
  intro fuel
  induction fuel with
  | zero => intro k s h; simp [allocLoop] at h
  | succ n ih =>
    intro k s h
    by_cases hm : cand k ∈ existing
    · rw [allocLoop, if_pos hm] at h
      exact ih _ _ h
    · rw [allocLoop, if_neg hm] at h
      cases h
      exact hm

theorem allocLoop_exists_draw (cand : Nat → String) (existing : List String) :
    ∀ fuel k s, allocLoop cand existing fuel k = some s → ∃ j, s = cand j := by
  intro fuel
  induction fuel with
  | zero => intro k s h; simp [allocLoop] at h
  | succ n ih =>
    intro k s h
    by_cases hm : cand k ∈ existing
    · rw [allocLoop, if_pos hm] at h
      exact ih _ _ h
    · rw [allocLoop, if_neg hm] at h
      cases h
      exact ⟨k, rfl⟩

theorem resolveId_none_inv (a : Option String) (u : String)
    (h : resolveId none a = .ok u) : a = some u := by
  cases a with
  | none => simp [resolveId] at h
  | some v => simp [resolveId] at h; rw [h]

theorem add_patient_indexed_dup_eq (idx : IndexResult) (cd : Nat → Fin 36)
    (ud : Nat → Nat) (vo : Bool) (ve : String) (fuel : Nat) (mrn fn ln : String)
    (ui ug ng : Option String) (f l : String)
    (hl : idx.patient_info.lookup mrn = some (Cell.str f, Cell.str l))
    (hf : pyLower fn = pyLower f) (hln : pyLower ln = pyLower l) :
    add_patient_indexed idx cd ud vo ve fuel mrn fn ln ui ug ng
      = .ok (.duplicate ("MRN " ++ mrn ++ " already exists in database.")) := by
  unfold add_patient_indexed
  rw [hl]
  simp [cellLower, hf, hln]

theorem add_patient_indexed_conflict_eq (idx : IndexResult) (cd : Nat → Fin 36)
    (ud : Nat → Nat) (vo : Bool) (ve : String) (fuel : Nat) (mrn fn ln : String)
    (ui ug ng : Option String) (f l : String)
    (hl : idx.patient_info.lookup mrn = some (Cell.str f, Cell.str l))
    (hne : ¬(pyLower fn = pyLower f ∧ pyLower ln = pyLower l)) :
    add_patient_indexed idx cd ud vo ve fuel mrn fn ln ui ug ng
      = .error (.valueError
          ("MRN " ++ mrn ++ " already exists in database with different name.")) := by
  unfold add_patient_indexed
  rw [hl]
  by_cases hf : pyLower fn = pyLower f
  · have hln : ¬pyLower ln = pyLower l := fun hc => hne ⟨hf, hc⟩
    simp [cellLower, hf, hln]
  · simp [cellLower, hf]

theorem add_patient_indexed_nodup_eq (idx : IndexResult) (cd : Nat → Fin 36)
    (ud : Nat → Nat) (vo : Bool) (ve : String) (fuel : Nat) (mrn fn ln : String)
    (ui ug ng : Option String) (uid gid : String)
    (hl : idx.patient_info.lookup mrn = none)
    (hu : resolveId ui (allocLoop (drawShortId cd) idx.ucsf_ids fuel 0) = .ok uid)
    (hg : resolveId ug (allocLoop (fun k => uuidHex (ud k)) idx.ucsf_guids fuel 0)
        = .ok gid) :
    add_patient_indexed idx cd ud vo ve fuel mrn fn ln ui ug ng
      = .ok (.inserted
          [ImportRecord.phi ⟨uid, "general_phi_arm_1", mrn, fn, ln⟩,
           ImportRecord.info ⟨uid, "demographics_arm_1", uid, gid, ng⟩]
          (if vo then none
           else some ("Failed to add patient " ++ mrn ++ " to database: " ++ ve))
          (uid, gid)) := by
  unfold add_patient_indexed
  rw [hl, hu, hg]

theorem add_patient_indexed_inserted_inv (idx : IndexResult) (cd : Nat → Fin 36)
    (ud : Nat → Nat) (vo : Bool) (ve : String) (fuel : Nat) (mrn fn ln : String)
    (ui ug ng : Option String) (imports : List ImportRecord) (vw : Option String)
    (sid gid : String)
    (h : add_patient_indexed idx cd ud vo ve fuel mrn fn ln ui ug ng
        = .ok (.inserted imports vw (sid, gid))) :
    idx.patient_info.lookup mrn = none
    ∧ imports = [ImportRecord.phi ⟨sid, "general_phi_arm_1", mrn, fn, ln⟩,
                 ImportRecord.info ⟨sid, "demographics_arm_1", sid, gid, ng⟩]
    ∧ vw = (if vo then none
            else some ("Failed to add patient " ++ mrn ++ " to database: " ++ ve))
    ∧ resolveId ui (allocLoop (drawShortId cd) idx.ucsf_ids fuel 0) = .ok sid
    ∧ resolveId ug (allocLoop (fun k => uuidHex (ud k)) idx.ucsf_guids fuel 0)
        = .ok gid := by
  unfold add_patient_indexed at h
  split at h
  · split at h
    · exact Except.noConfusion h
    · split at h
      · split at h
        · exact Except.noConfusion h
        · split at h
          · exact AddPatientOutcome.noConfusion (Except.ok.inj h)
          · exact Except.noConfusion h
      · exact Except.noConfusion h
  · rename_i hl
    split at h
    · exact Except.noConfusion h
    · rename_i uid hu
      split at h
      · exact Except.noConfusion h
      · rename_i gid2 hg
        rw [Except.ok.injEq, AddPatientOutcome.inserted.injEq] at h
        obtain ⟨himp, hvw, hpr⟩ := h
        have hsid : uid = sid := congrArg Prod.fst hpr
        have hgid : gid2 = gid := congrArg Prod.snd hpr
        subst hsid
        subst hgid
        exact ⟨hl, himp.symm, hvw.symm, hu, hg⟩

theorem add_patient_indexed_verify (idx : IndexResult) (cd : Nat → Fin 36)
    (ud : Nat → Nat) (ve : String) (fuel : Nat) (mrn fn ln : String)
    (ui ug ng : Option String) :
    add_patient_indexed idx cd ud false ve fuel mrn fn ln ui ug ng
      = Except.map (withVerifyFailure mrn ve)
          (add_patient_indexed idx cd ud true ve fuel mrn fn ln ui ug ng) := by
  unfold add_patient_indexed
  repeat' split
  all_goals first | rfl | contradiction

/-! ## Claim theorems -/

/-- C1: every successful insertion (existing sets free of the generated values,
e.g. an empty table) submits a single batch import of exactly two record dicts
sharing the generated short ID as `record_id` — one tagged
`general_phi_arm_1` carrying `mrn`, `first_name`, `last_name`, the other tagged
`demographics_arm_1` carrying `ucsf_id`, `ucsf_guid`, `nda_guid` — and the
returned pair is exactly that `(short_id, guid)`. -/
theorem add_patient_import_batch_shape (env : Env) (fuel : Nat)
    (mrn fn ln : String) (imports : List ImportRecord) (vw : Option String)
    (sid gid : String)
    (h : add_patient env fuel mrn fn ln none none none
        = .ok (.inserted imports vw (sid, gid))) :
    imports = [ImportRecord.phi ⟨sid, "general_phi_arm_1", mrn, fn, ln⟩,
               ImportRecord.info ⟨sid, "demographics_arm_1", sid, gid, none⟩] := by
  unfold add_patient at h
  cases hidx : indexRecords env.table with
  | error e => rw [hidx] at h; exact Except.noConfusion h
  | ok idx =>
    rw [hidx] at h
    exact (add_patient_indexed_inserted_inv idx env.charDraw env.uuidDraw
      env.verifyOk env.verifyErr fuel mrn fn ln none none none
      imports vw sid gid h).2.1

theorem add_patient_import_batch_shape_witness :
    [ImportRecord.phi ⟨"AAAA", "general_phi_arm_1", "00000001", "A", "B"⟩,
     ImportRecord.info ⟨"AAAA", "demographics_arm_1", "AAAA",
       "00000000000000000000000000000000", none⟩]
    = [ImportRecord.phi ⟨"AAAA", "general_phi_arm_1", "00000001", "A", "B"⟩,
       ImportRecord.info ⟨"AAAA", "demographics_arm_1", "AAAA",
         "00000000000000000000000000000000", none⟩] :=
  add_patient_import_batch_shape ⟨[], fun _ => (0 : Fin 36), fun _ => 0, true, ""⟩ 1
    "00000001" "A" "B"
    [ImportRecord.phi ⟨"AAAA", "general_phi_arm_1", "00000001", "A", "B"⟩,
     ImportRecord.info ⟨"AAAA", "demographics_arm_1", "AAAA",
       "00000000000000000000000000000000", none⟩]
    none "AAAA" "00000000000000000000000000000000" rfl

/-- C2: when the indexed export maps the caller's `mrn` to a name pair equal to
the call's names under case-insensitive comparison, `add_patient` takes the
benign-duplicate path: it warns and returns `None`, submitting no import. -/
theorem add_patient_duplicate_warns (env : Env) (fuel : Nat) (mrn fn ln : String)
    (ui ug ng : Option String) (idx : IndexResult) (f l : String)
    (hidx : indexRecords env.table = .ok idx)
    (hl : idx.patient_info.lookup mrn = some (Cell.str f, Cell.str l))
    (hf : pyLower fn = pyLower f) (hln : pyLower ln = pyLower l) :
    add_patient env fuel mrn fn ln ui ug ng
      = .ok (.duplicate ("MRN " ++ mrn ++ " already exists in database.")) := by
  unfold add_patient
  rw [hidx]
  exact add_patient_indexed_dup_eq idx env.charDraw env.uuidDraw env.verifyOk
    env.verifyErr fuel mrn fn ln ui ug ng f l hl hf hln

theorem add_patient_duplicate_warns_witness :
    add_patient ⟨[⟨Cell.nan, Cell.nan, Cell.nan, Cell.nan, Cell.num 1234,
        Cell.str "Jane", Cell.str "Doe"⟩],
        fun _ => (0 : Fin 36), fun _ => 0, true, ""⟩
      1 "00001234" "JANE" "doe" none none none
      = .ok (.duplicate ("MRN " ++ "00001234" ++ " already exists in database.")) :=
  add_patient_duplicate_warns
    ⟨[⟨Cell.nan, Cell.nan, Cell.nan, Cell.nan, Cell.num 1234,
        Cell.str "Jane", Cell.str "Doe"⟩],
      fun _ => (0 : Fin 36), fun _ => 0, true, ""⟩
    1 "00001234" "JANE" "doe" none none none
    ⟨[("00001234", (Cell.str "Jane", Cell.str "Doe"))], [], [], []⟩
    "Jane" "Doe" rfl rfl rfl rfl

/-- C3: when the indexed export maps the caller's `mrn` to a name pair that
differs case-insensitively from the call's names, `add_patient` raises a
`ValueError` conflict; no import is submitted on this error path. -/
theorem add_patient_name_conflict_fails (env : Env) (fuel : Nat)
    (mrn fn ln : String) (ui ug ng : Option String) (idx : IndexResult)
    (f l : String)
    (hidx : indexRecords env.table = .ok idx)
    (hl : idx.patient_info.lookup mrn = some (Cell.str f, Cell.str l))
    (hne : ¬(pyLower fn = pyLower f ∧ pyLower ln = pyLower l)) :
    add_patient env fuel mrn fn ln ui ug ng
      = .error (.valueError
          ("MRN " ++ mrn ++ " already exists in database with different name.")) := by
  unfold add_patient
  rw [hidx]
  exact add_patient_indexed_conflict_eq idx env.charDraw env.uuidDraw env.verifyOk
    env.verifyErr fuel mrn fn ln ui ug ng f l hl hne

theorem add_patient_name_conflict_fails_witness :
    add_patient ⟨[⟨Cell.nan, Cell.nan, Cell.nan, Cell.nan, Cell.num 1234,
        Cell.str "Jane", Cell.str "Doe"⟩],
        fun _ => (0 : Fin 36), fun _ => 0, true, ""⟩
      1 "00001234" "Jane" "Smith" none none none
      = .error (.valueError
          ("MRN " ++ "00001234" ++ " already exists in database with different name.")) :=
  add_patient_name_conflict_fails
    ⟨[⟨Cell.nan, Cell.nan, Cell.nan, Cell.nan, Cell.num 1234,
        Cell.str "Jane", Cell.str "Doe"⟩],
      fun _ => (0 : Fin 36), fun _ => 0, true, ""⟩
    1 "00001234" "Jane" "Smith" none none none
    ⟨[("00001234", (Cell.str "Jane", Cell.str "Doe"))], [], [], []⟩
    "Jane" "Doe" rfl rfl (by decide)

/-- C4: when the caller supplies no short ID and the rejection-sampling loop
terminates (the call completes with an insertion), the short ID written is not
in the set of existing short IDs collected from the export, and the allocated
GUID is not in the existing GUID set. -/
theorem allocated_ids_fresh (env : Env) (fuel : Nat) (mrn fn ln : String)
    (ng : Option String) (idx : IndexResult) (imports : List ImportRecord)
    (vw : Option String) (sid gid : String)
    (hidx : indexRecords env.table = .ok idx)
    (h : add_patient env fuel mrn fn ln none none ng
        = .ok (.inserted imports vw (sid, gid))) :
    sid ∉ idx.ucsf_ids ∧ gid ∉ idx.ucsf_guids := by
  unfold add_patient at h
  rw [hidx] at h
  have hinv := add_patient_indexed_inserted_inv idx env.charDraw env.uuidDraw
    env.verifyOk env.verifyErr fuel mrn fn ln none none ng imports vw sid gid h
  exact ⟨allocLoop_not_mem _ _ fuel 0 sid (resolveId_none_inv _ _ hinv.2.2.2.1),
         allocLoop_not_mem _ _ fuel 0 gid (resolveId_none_inv _ _ hinv.2.2.2.2)⟩

theorem allocated_ids_fresh_witness :
    "BBBB" ∉ ["AAAA"] ∧ "00000000000000000000000000000000" ∉ ([] : List String) :=
  allocated_ids_fresh
    ⟨[⟨Cell.nan, Cell.str "AAAA", Cell.nan, Cell.nan, Cell.nan, Cell.nan, Cell.nan⟩],
      (fun n => if n < 4 then (0 : Fin 36) else 1), (fun _ => 0), true, ""⟩
    2 "00000001" "A" "B" none ⟨[], ["AAAA"], [], []⟩
    [ImportRecord.phi ⟨"BBBB", "general_phi_arm_1", "00000001", "A", "B"⟩,
     ImportRecord.info ⟨"BBBB", "demographics_arm_1", "BBBB",
       "00000000000000000000000000000000", none⟩]
    none "BBBB" "00000000000000000000000000000000" rfl rfl

/-- C5 counterexample: a string-typed mrn cell is NOT passed through unchanged —
indexing the row whose mrn cell is the string `"1234"` records the key
`"00001234"` (the cell is run through `int()` and 8-digit zero-padding),
which differs from the original string. -/
theorem mrn_string_key_not_identity :
    indexRecords [⟨Cell.nan, Cell.nan, Cell.nan, Cell.nan, Cell.str "1234",
        Cell.str "A", Cell.str "B"⟩]
      = .ok ⟨[("00001234", (Cell.str "A", Cell.str "B"))], [], [], []⟩
    ∧ "00001234" ≠ "1234" := ⟨rfl, by decide⟩

/-- C5 amended: during indexing, every mrn cell passing the NaN guard — numeric
or string alike — is converted with `int()` and reformatted to an 8-digit
zero-padded decimal key; a string mrn therefore maps to the zero-padded form of
its parsed integer value (so it is recorded unchanged only when it is already
in that 8-digit form). -/
theorem mrn_key_normalized (s : String) (n : Int) (h : pyIntOfString s = some n) :
    mrnKeyOf (Cell.str s) = .ok (some (pyZpad 8 n))
    ∧ ∀ m : Int, mrnKeyOf (Cell.num m) = .ok (some (pyZpad 8 m)) := by
  constructor
  · simp [mrnKeyOf, h]
  · intro m
    rfl

theorem mrn_key_normalized_witness :
    mrnKeyOf (Cell.str "1234") = .ok (some (pyZpad 8 1234))
    ∧ ∀ m : Int, mrnKeyOf (Cell.num m) = .ok (some (pyZpad 8 m)) :=
  mrn_key_normalized "1234" 1234 rfl

/-- C6: every short ID produced by `create_ucsf_id` and every short ID the
allocation loop inside `add_patient` yields has length exactly 4 with each
character drawn from `A–Z0–9`; every GUID produced on either path is a
32-character lowercase hexadecimal string. -/
theorem generated_ids_wellformed (cd : Nat → Fin 36) (ud : Nat → Nat)
    (uuidVal : Nat) :
    isValidShortId (create_ucsf_id cd uuidVal).1
    ∧ isLowerHex32 (create_ucsf_id cd uuidVal).2
    ∧ (∀ existing fuel k s,
        allocLoop (drawShortId cd) existing fuel k = some s → isValidShortId s)
    ∧ (∀ existing fuel k s,
        allocLoop (fun j => uuidHex (ud j)) existing fuel k = some s →
          isLowerHex32 s) := by
  refine ⟨drawShortId_valid cd 0, uuidHex_hex uuidVal, ?_, ?_⟩
  · intro existing fuel k s h
    rcases allocLoop_exists_draw _ _ fuel k s h with ⟨j, rfl⟩
    exact drawShortId_valid cd j
  · intro existing fuel k s h
    rcases allocLoop_exists_draw _ _ fuel k s h with ⟨j, rfl⟩
    exact uuidHex_hex (ud j)

theorem generated_ids_wellformed_witness :
    isValidShortId "AAAA" ∧ isLowerHex32 "00000000000000000000000000000000" := by
  have h := generated_ids_wellformed (fun _ => (0 : Fin 36)) (fun _ => 0) 0
  exact ⟨h.2.2.1 [] 1 0 "AAAA" rfl,
         h.2.2.2 [] 1 0 "00000000000000000000000000000000" rfl⟩

/-- C7: if the post-write verification re-fetch raises, `add_patient` catches
the exception and only records the warning — the import is not retried or
rolled back, the call still succeeds, and the same `(short_id, guid)` pair is
returned; a verification failure is never propagated to the caller. -/
theorem add_patient_verify_failure_nonfatal (table : List Row)
    (cd : Nat → Fin 36) (ud : Nat → Nat) (ve : String) (fuel : Nat)
    (mrn fn ln : String) (ui ug ng : Option String) :
    add_patient ⟨table, cd, ud, false, ve⟩ fuel mrn fn ln ui ug ng
      = Except.map (withVerifyFailure mrn ve)
          (add_patient ⟨table, cd, ud, true, ve⟩ fuel mrn fn ln ui ug ng) := by
  unfold add_patient
  cases hidx : indexRecords table with
  | error e => rfl
  | ok idx => exact add_patient_indexed_verify idx cd ud ve fuel mrn fn ln ui ug ng

/-- C8: duplicate detection looks the caller's `mrn` argument up verbatim among
the normalized 8-digit zero-padded keys of the indexed export; whenever that
verbatim lookup misses (e.g. `mrn = "1234"` while the table holds the patient
under `"00001234"`), no duplicate or conflict is raised and a fresh record is
inserted for the same patient. -/
theorem add_patient_mrn_verbatim_lookup_inserts (env : Env) (fuel : Nat)
    (mrn fn ln : String) (idx : IndexResult) (sid gid : String)
    (hidx : indexRecords env.table = .ok idx)
    (hl : idx.patient_info.lookup mrn = none)
    (hs : allocLoop (drawShortId env.charDraw) idx.ucsf_ids fuel 0 = some sid)
    (hg : allocLoop (fun k => uuidHex (env.uuidDraw k)) idx.ucsf_guids fuel 0
        = some gid)
    (hv : env.verifyOk = true) :
    add_patient env fuel mrn fn ln none none none
      = .ok (.inserted
          [ImportRecord.phi ⟨sid, "general_phi_arm_1", mrn, fn, ln⟩,
           ImportRecord.info ⟨sid, "demographics_arm_1", sid, gid, none⟩]
          none (sid, gid)) := by
  unfold add_patient
  rw [hidx, hv]
  exact add_patient_indexed_nodup_eq idx env.charDraw env.uuidDraw true
    env.verifyErr fuel mrn fn ln none none none sid gid hl
    (by rw [hs]; rfl) (by rw [hg]; rfl)

theorem add_patient_mrn_verbatim_lookup_inserts_witness :
    add_patient ⟨[⟨Cell.nan, Cell.nan, Cell.nan, Cell.nan, Cell.num 1234,
        Cell.str "Jane", Cell.str "Doe"⟩],
        fun _ => (0 : Fin 36), fun _ => 0, true, ""⟩
      1 "1234" "Jane" "Doe" none none none
      = .ok (.inserted
          [ImportRecord.phi ⟨"AAAA", "general_phi_arm_1", "1234", "Jane", "Doe"⟩,
           ImportRecord.info ⟨"AAAA", "demographics_arm_1", "AAAA",
             "00000000000000000000000000000000", none⟩]
          none ("AAAA", "00000000000000000000000000000000")) :=
  add_patient_mrn_verbatim_lookup_inserts
    ⟨[⟨Cell.nan, Cell.nan, Cell.nan, Cell.nan, Cell.num 1234,
        Cell.str "Jane", Cell.str "Doe"⟩],
      fun _ => (0 : Fin 36), fun _ => 0, true, ""⟩
    1 "1234" "Jane" "Doe"
    ⟨[("00001234", (Cell.str "Jane", Cell.str "Doe"))], [], [], []⟩
    "AAAA" "00000000000000000000000000000000" rfl rfl rfl rfl rfl

/-- C9: caller-supplied `ucsf_id`, `ucsf_guid` and `nda_guid` are written into
the import exactly as given, with no collision check against the corresponding
existing-identifier sets (witnessed with every supplied value already present
in the export); moreover the `nda_guids` set built during indexing is never
consulted: the outcome is invariant under replacing it. -/
theorem supplied_ids_written_verbatim (env : Env) (fuel : Nat)
    (mrn fn ln u g nd : String) (idx : IndexResult)
    (hidx : indexRecords env.table = .ok idx)
    (hl : idx.patient_info.lookup mrn = none)
    (hv : env.verifyOk = true) :
    add_patient env fuel mrn fn ln (some u) (some g) (some nd)
      = .ok (.inserted
          [ImportRecord.phi ⟨u, "general_phi_arm_1", mrn, fn, ln⟩,
           ImportRecord.info ⟨u, "demographics_arm_1", u, g, some nd⟩]
          none (u, g))
    ∧ ∀ (idx2 : IndexResult) (vo : Bool) (ve : String) (ui ug ng : Option String)
        (nds : List String),
        add_patient_indexed { idx2 with nda_guids := nds } env.charDraw
            env.uuidDraw vo ve fuel mrn fn ln ui ug ng
          = add_patient_indexed idx2 env.charDraw env.uuidDraw vo ve fuel
              mrn fn ln ui ug ng := by
  constructor
  · unfold add_patient
    rw [hidx, hv]
    exact add_patient_indexed_nodup_eq idx env.charDraw env.uuidDraw true
      env.verifyErr fuel mrn fn ln (some u) (some g) (some nd) u g hl rfl rfl
  · intro idx2 vo ve ui ug ng nds
    rfl

theorem supplied_ids_written_verbatim_witness :
    (add_patient ⟨[⟨Cell.nan, Cell.str "AAAA",
          Cell.str "00000000000000000000000000000000", Cell.str "N1",
          Cell.nan, Cell.nan, Cell.nan⟩],
        fun _ => (0 : Fin 36), fun _ => 0, true, ""⟩
      1 "00000001" "A" "B" (some "AAAA")
        (some "00000000000000000000000000000000") (some "N1")
      = .ok (.inserted
          [ImportRecord.phi ⟨"AAAA", "general_phi_arm_1", "00000001", "A", "B"⟩,
           ImportRecord.info ⟨"AAAA", "demographics_arm_1", "AAAA",
             "00000000000000000000000000000000", some "N1"⟩]
          none ("AAAA", "00000000000000000000000000000000")))
    ∧ add_patient_indexed ⟨[], [], [], ["N3"]⟩ (fun _ => (0 : Fin 36))
        (fun _ => 0) true "" 1 "00000001" "A" "B" none none none
      = add_patient_indexed ⟨[], [], [], ["N2"]⟩ (fun _ => (0 : Fin 36))
        (fun _ => 0) true "" 1 "00000001" "A" "B" none none none := by
  have h := supplied_ids_written_verbatim
    ⟨[⟨Cell.nan, Cell.str "AAAA",
        Cell.str "00000000000000000000000000000000", Cell.str "N1",
        Cell.nan, Cell.nan, Cell.nan⟩],
      fun _ => (0 : Fin 36), fun _ => 0, true, ""⟩
    1 "00000001" "A" "B" "AAAA" "00000000000000000000000000000000" "N1"
    ⟨[], ["AAAA"], ["00000000000000000000000000000000"], ["N1"]⟩ rfl rfl rfl
  exact ⟨h.1, h.2 ⟨[], [], [], ["N2"]⟩ true "" none none none ["N3"]⟩

/-- C10: `ucsf_id_lookup` is an unimplemented stub — despite its declared `str`
return type its body is `pass`, so it returns `None` for every input. -/
theorem ucsf_id_lookup_stub (id0 idType : String) :
    ucsf_id_lookup id0 idType = none := rfl
